import Mathlib

/-!
Verification of the frigade-react widget sources against their specification.

The embedding covers:
* `src/components/Forms/MultiInputStepType/MultiInputStepType.tsx`
  (validation-error aggregation, `canContinue` publication, per-field data
  merging and local-storage write-through/hydration);
* `src/FrigadeNPSSurvey/index.tsx`
  (the NPS survey render guards, the score-chooser and reason-capture click
  handlers, `FrigadeProvider`'s API-key validation, graceful degradation and
  user/organization id updates).

JavaScript objects used as string-keyed records are embedded as association
lists with the object-spread update semantics (existing key: value replaced in
place; new key: appended).  `JSON.stringify`/`JSON.parse` are runtime
built-ins, not repository code, and are mutually inverse on the plain
string-keyed records stored here, so a stored value is modelled as the record
itself.  Asynchronous click handlers are single sequential `await` chains, so
each handler is embedded as the ordered list of the calls it issues.
-/

/-- `FormValidationError` from `FrigadeForm/types`: a field identifier plus a
message, as used by the `MultiInputStepType` error aggregate. -/
structure FormValidationError where
  id : String
  message : String
deriving DecidableEq, Repr

/-- The functional updater passed to `setFormValidationErrors` in
`MultiInputStepType` (MultiInputStepType.tsx lines 103-110): given the field's
`input.id`, the previous aggregate `prev` and the reported list `errors`,
an empty report filters out every aggregated error carrying the field's id,
while a non-empty report appends the reported errors to the aggregate. -/
def updateValidationErrors (inputId : String) (prev errors : List FormValidationError) :
    List FormValidationError :=
  if errors.length = 0 then
    prev.filter (fun error => error.id ≠ inputId)
  else
    prev ++ errors

/-- The value published through `setCanContinue` by the effect on
`formValidationErrors` (MultiInputStepType.tsx lines 55-57):
`formValidationErrors.length === 0`. -/
def canContinueOf (formValidationErrors : List FormValidationError) : Bool :=
  formValidationErrors.length = 0

/-- A JavaScript string-keyed record, in insertion order. -/
abbrev JsRecord (α : Type) := List (String × α)

/-- Property lookup on a string-keyed record: the first entry with the key. -/
def lookupField {α : Type} : JsRecord α → String → Option α
  | [], _ => none
  | p :: rest, k => if p.1 = k then some p.2 else lookupField rest k

/-- Object-spread update `{...m, [k]: v}`: when `k` is already a key its value
is replaced in place, otherwise the entry `(k, v)` is appended. -/
def jsRecordSet {α : Type} (m : JsRecord α) (k : String) (v : α) : JsRecord α :=
  if m.any (fun p => p.1 = k) then
    m.map (fun p => if p.1 = k then (k, v) else p)
  else
    m ++ [(k, v)]

/-- The step-level aggregate `allFormData`: field id to submitted value (field
values are opaque payloads, embedded as strings). -/
abbrev FormData := JsRecord String

/-- The window's local storage, when available: a record from storage key to
the stored step aggregate (`JSON` round-trip modelled as the identity, see the
file header). `none` embeds a missing `window.localStorage`. -/
abbrev LocalStorage := Option (JsRecord FormData)

/-- `localStorage.getItem` composed with availability: `none` when storage is
missing or holds no entry for the key. -/
def storageGetItem (storage : LocalStorage) (key : String) : Option FormData :=
  match storage with
  | none => none
  | some st => lookupField st key

/-- `getLocalStorageKey` (MultiInputStepType.tsx lines 79-81). -/
def getLocalStorageKey (stepId : String) : String :=
  "frigade-multiInputStepTypeData-" ++ stepId

/-- The mutable state of a mounted `MultiInputStepType` relevant to data
saving: the in-memory aggregate and the surrounding local storage. -/
structure MultiInputState where
  allFormData : FormData
  storage : LocalStorage
deriving DecidableEq, Repr

/-- `saveDataFromInputs` (MultiInputStepType.tsx lines 59-67): merges the
field's value into the aggregate via object spread, stores the new aggregate
(`setAllFormData`), and write-through persists it under the step's key when
local storage exists (`onSaveData` receives the same `newData`). -/
def saveDataFromInputs (stepId : String) (s : MultiInputState) (inputId : String)
    (data : String) : MultiInputState :=
  let newData := jsRecordSet s.allFormData inputId data
  match s.storage with
  | none => ⟨newData, none⟩
  | some st => ⟨newData, some (jsRecordSet st (getLocalStorageKey stepId) newData)⟩

/-- `loadFromLocalStorage` (MultiInputStepType.tsx lines 69-77): when storage
exists and holds a (necessarily non-empty, hence truthy) entry for the step's
key, parse it; otherwise return the empty record. -/
def loadFromLocalStorage (storage : LocalStorage) (stepId : String) : FormData :=
  match storage with
  | none => []
  | some st =>
    match lookupField st (getLocalStorageKey stepId) with
    | none => []
    | some data => data

/-- The initial `allFormData` state (MultiInputStepType.tsx line 49):
`loadFromLocalStorage() || {}`; the loaded record is an object, hence truthy,
so the fallback never fires and the initial state is the loaded record. -/
def initialAllFormData (storage : LocalStorage) (stepId : String) : FormData :=
  loadFromLocalStorage storage stepId

/-- C1: the claim says a non-empty error report removes the prior errors
carrying the reporting field's identifier and leaves exactly the newly
reported errors for it.  The updater does not: with a prior error for field
"A" in the aggregate, a fresh non-empty report for "A" appends, so the prior
"A" error survives and the "A" errors are not exactly the new report. -/
theorem C1_counterexample :
    FormValidationError.mk "A" "m1" ∈
      updateValidationErrors "A" [⟨"A", "m1"⟩] [⟨"A", "m2"⟩] ∧
    (updateValidationErrors "A" [⟨"A", "m1"⟩] [⟨"A", "m2"⟩]).filter
        (fun e => e.id = "A") ≠ [⟨"A", "m2"⟩] := by
  constructor
  · decide
  · decide

/-- C1 (amended): when a field reports an empty error list, every aggregated
error with that field's identifier is removed and all other errors are kept;
when it reports a non-empty list, the reported errors are appended to the
aggregate unchanged, so prior errors for the same identifier are retained
rather than replaced. -/
theorem C1_validation_update (inputId : String) (prev errors : List FormValidationError) :
    (errors = [] →
      (∀ e ∈ updateValidationErrors inputId prev errors, e.id ≠ inputId) ∧
      updateValidationErrors inputId prev errors =
        prev.filter (fun e => e.id ≠ inputId)) ∧
    (errors ≠ [] → updateValidationErrors inputId prev errors = prev ++ errors) := by
  constructor
  · rintro rfl
    have hfil : updateValidationErrors inputId prev [] =
        prev.filter (fun e => e.id ≠ inputId) := by
      simp [updateValidationErrors]
    refine ⟨?_, hfil⟩
    intro e he
    rw [hfil] at he
    exact of_decide_eq_true (List.mem_filter.mp he).2
  · intro h
    simp only [updateValidationErrors, List.length_eq_zero]
    rw [if_neg h]

/-- C1 witness: the amended behaviour at a concrete input. -/
theorem C1_validation_update_witness :
    updateValidationErrors "A" [⟨"A", "m1"⟩] [⟨"A", "m2"⟩] =
      [⟨"A", "m1"⟩] ++ [⟨"A", "m2"⟩] :=
  (C1_validation_update "A" [⟨"A", "m1"⟩] [⟨"A", "m2"⟩]).2 (by decide)

/-- C2: the published `canContinue` is true exactly when the aggregated
validation-error set is empty: it is true on the empty aggregate, false as
soon as any error is present, and clearing the last field's errors (an empty
report from the only field with aggregated errors) restores it to true. -/
theorem C2_canContinue (errs : List FormValidationError) :
    (canContinueOf errs = true ↔ errs = []) ∧
    canContinueOf [] = true ∧
    (∀ e rest, canContinueOf (e :: rest) = false) ∧
    (∀ inputId prev, (∀ e ∈ prev, e.id = inputId) →
      canContinueOf (updateValidationErrors inputId prev []) = true) := by
  refine ⟨?_, rfl, fun e rest => rfl, ?_⟩
  · simp [canContinueOf]
  · intro inputId prev h
    have hfil : updateValidationErrors inputId prev [] =
        prev.filter (fun e => e.id ≠ inputId) := by
      simp [updateValidationErrors]
    have hupd : updateValidationErrors inputId prev [] = [] := by
      rw [hfil, List.filter_eq_nil_iff]
      intro e he
      simp [h e he]
    simp [hupd, canContinueOf]

/-- Replacing an existing key's value in place yields that value on lookup. -/
theorem lookupField_replace_self {α : Type} (m : JsRecord α) (k : String) (v : α)
    (h : m.any (fun p => p.1 = k) = true) :
    lookupField (m.map (fun p => if p.1 = k then (k, v) else p)) k = some v := by
  induction m with
  | nil => simp at h
  | cons p rest ih =>
    by_cases hp : p.1 = k
    · simp [lookupField, hp]
    · have hrest : rest.any (fun p => p.1 = k) = true := by
        simp only [List.any_cons] at h
        rcases Bool.or_eq_true_iff.mp h with h1 | h1
        · exact absurd (of_decide_eq_true h1) hp
        · exact h1
      simp [lookupField, hp, ih hrest]

/-- Replacing one key's value leaves lookups of other keys unchanged. -/
theorem lookupField_replace_other {α : Type} (m : JsRecord α) (k k' : String) (v : α)
    (h : k' ≠ k) :
    lookupField (m.map (fun p => if p.1 = k then (k, v) else p)) k' = lookupField m k' := by
  induction m with
  | nil => rfl
  | cons p rest ih =>
    by_cases hp : p.1 = k
    · simp [lookupField, hp, Ne.symm h, ih]
    · by_cases hp' : p.1 = k'
      · simp [lookupField, hp, hp', h]
      · simp [lookupField, hp, hp', ih]

/-- Lookup distributes over append: the left record wins. -/
theorem lookupField_append {α : Type} (m₁ m₂ : JsRecord α) (k : String) :
    lookupField (m₁ ++ m₂) k =
      match lookupField m₁ k with
      | some v => some v
      | none => lookupField m₂ k := by
  induction m₁ with
  | nil => rfl
  | cons p rest ih =>
    by_cases hp : p.1 = k
    · simp [lookupField, hp]
    · simp [lookupField, hp, ih]

/-- When no entry has key `k`, lookup of `k` fails. -/
theorem lookupField_eq_none_of_not_any {α : Type} (m : JsRecord α) (k : String)
    (h : m.any (fun p => p.1 = k) = false) : lookupField m k = none := by
  induction m with
  | nil => rfl
  | cons p rest ih =>
    simp only [List.any_cons, Bool.or_eq_false_iff] at h
    have hp : p.1 ≠ k := of_decide_eq_false h.1
    simp [lookupField, hp, ih h.2]

/-- Object-spread update stores the written value under the written key. -/
theorem lookupField_jsRecordSet_self {α : Type} (m : JsRecord α) (k : String) (v : α) :
    lookupField (jsRecordSet m k v) k = some v := by
  unfold jsRecordSet
  by_cases h : m.any (fun p => p.1 = k) = true
  · rw [if_pos h]
    exact lookupField_replace_self m k v h
  · rw [if_neg h, lookupField_append,
      lookupField_eq_none_of_not_any m k (Bool.of_not_eq_true h)]
    simp [lookupField]

/-- Object-spread update leaves every other key's lookup unchanged. -/
theorem lookupField_jsRecordSet_other {α : Type} (m : JsRecord α) (k k' : String) (v : α)
    (h : k' ≠ k) : lookupField (jsRecordSet m k v) k' = lookupField m k' := by
  unfold jsRecordSet
  by_cases hany : m.any (fun p => p.1 = k) = true
  · rw [if_pos hany]
    exact lookupField_replace_other m k k' v h
  · rw [if_neg hany, lookupField_append]
    cases hm : lookupField m k' with
    | some v' => rfl
    | none => simp [lookupField, Ne.symm h]

/-- `saveDataFromInputs` updates the aggregate by object spread. -/
theorem saveDataFromInputs_allFormData (stepId : String) (s : MultiInputState)
    (inputId data : String) :
    (saveDataFromInputs stepId s inputId data).allFormData =
      jsRecordSet s.allFormData inputId data := by
  unfold saveDataFromInputs
  cases s.storage <;> rfl

/-- When local storage exists, `saveDataFromInputs` write-through persists the
new aggregate under the step's key. -/
theorem saveDataFromInputs_storage (stepId : String) (s : MultiInputState)
    (inputId data : String) (h : s.storage.isSome) :
    storageGetItem (saveDataFromInputs stepId s inputId data).storage
        (getLocalStorageKey stepId) =
      some (saveDataFromInputs stepId s inputId data).allFormData := by
  rcases Option.isSome_iff_exists.mp h with ⟨st, hst⟩
  simp only [saveDataFromInputs, hst, storageGetItem]
  exact lookupField_jsRecordSet_self st (getLocalStorageKey stepId) _

/-- `saveDataFromInputs` never creates or destroys the storage object. -/
theorem saveDataFromInputs_storage_isSome (stepId : String) (s : MultiInputState)
    (inputId data : String) :
    (saveDataFromInputs stepId s inputId data).storage.isSome = s.storage.isSome := by
  unfold saveDataFromInputs
  cases s.storage <;> rfl

/-- Hydration recovers exactly the stored entry when one exists. -/
theorem initialAllFormData_of_getItem (storage : LocalStorage) (stepId : String)
    (stored : FormData)
    (h : storageGetItem storage (getLocalStorageKey stepId) = some stored) :
    initialAllFormData storage stepId = stored := by
  cases storage with
  | none => simp [storageGetItem] at h
  | some st =>
    simp only [storageGetItem] at h
    simp [initialAllFormData, loadFromLocalStorage, h]

/-- Hydration yields the empty aggregate when storage is missing or empty. -/
theorem initialAllFormData_of_getItem_none (storage : LocalStorage) (stepId : String)
    (h : storageGetItem storage (getLocalStorageKey stepId) = none) :
    initialAllFormData storage stepId = [] := by
  cases storage with
  | none => rfl
  | some st =>
    simp only [storageGetItem] at h
    simp [initialAllFormData, loadFromLocalStorage, h]

/-- C6: submitting values for two distinct fields `A` and `B`, in either
order, yields an aggregate mapping `A` to `vA` and `B` to `vB`; the two
submission orders agree on every field lookup (per-field merges over distinct
identifiers commute as record mappings); and when local storage exists each
order leaves exactly the final aggregate stored under
`frigade-multiInputStepTypeData-<stepId>`. -/
theorem C6_two_field_merge (stepId A B vA vB : String) (s : MultiInputState)
    (hAB : A ≠ B) (hstore : s.storage.isSome) :
    lookupField (saveDataFromInputs stepId (saveDataFromInputs stepId s A vA) B vB).allFormData
        A = some vA ∧
    lookupField (saveDataFromInputs stepId (saveDataFromInputs stepId s A vA) B vB).allFormData
        B = some vB ∧
    lookupField (saveDataFromInputs stepId (saveDataFromInputs stepId s B vB) A vA).allFormData
        A = some vA ∧
    lookupField (saveDataFromInputs stepId (saveDataFromInputs stepId s B vB) A vA).allFormData
        B = some vB ∧
    (∀ k, lookupField
        (saveDataFromInputs stepId (saveDataFromInputs stepId s A vA) B vB).allFormData k =
      lookupField
        (saveDataFromInputs stepId (saveDataFromInputs stepId s B vB) A vA).allFormData k) ∧
    storageGetItem (saveDataFromInputs stepId (saveDataFromInputs stepId s A vA) B vB).storage
        (getLocalStorageKey stepId) =
      some (saveDataFromInputs stepId (saveDataFromInputs stepId s A vA) B vB).allFormData ∧
    storageGetItem (saveDataFromInputs stepId (saveDataFromInputs stepId s B vB) A vA).storage
        (getLocalStorageKey stepId) =
      some (saveDataFromInputs stepId (saveDataFromInputs stepId s B vB) A vA).allFormData := by
  have hBA : B ≠ A := Ne.symm hAB
  have hAgg1 : (saveDataFromInputs stepId (saveDataFromInputs stepId s A vA) B vB).allFormData
      = jsRecordSet (jsRecordSet s.allFormData A vA) B vB := by
    rw [saveDataFromInputs_allFormData, saveDataFromInputs_allFormData]
  have hAgg2 : (saveDataFromInputs stepId (saveDataFromInputs stepId s B vB) A vA).allFormData
      = jsRecordSet (jsRecordSet s.allFormData B vB) A vA := by
    rw [saveDataFromInputs_allFormData, saveDataFromInputs_allFormData]
  refine ⟨?_, ?_, ?_, ?_, ?_, ?_, ?_⟩
  · rw [hAgg1, lookupField_jsRecordSet_other _ B A vB hAB, lookupField_jsRecordSet_self]
  · rw [hAgg1, lookupField_jsRecordSet_self]
  · rw [hAgg2, lookupField_jsRecordSet_self]
  · rw [hAgg2, lookupField_jsRecordSet_other _ A B vA hBA, lookupField_jsRecordSet_self]
  · intro k
    rw [hAgg1, hAgg2]
    by_cases hkB : k = B
    · rw [hkB, lookupField_jsRecordSet_self,
        lookupField_jsRecordSet_other _ A B vA hBA, lookupField_jsRecordSet_self]
    · by_cases hkA : k = A
      · rw [hkA, lookupField_jsRecordSet_other _ B A vB hAB, lookupField_jsRecordSet_self,
          lookupField_jsRecordSet_self]
      · rw [lookupField_jsRecordSet_other _ B k vB hkB,
          lookupField_jsRecordSet_other _ A k vA hkA,
          lookupField_jsRecordSet_other _ A k vA hkA,
          lookupField_jsRecordSet_other _ B k vB hkB]
  · exact saveDataFromInputs_storage stepId _ B vB
      (by rw [saveDataFromInputs_storage_isSome]; exact hstore)
  · exact saveDataFromInputs_storage stepId _ A vA
      (by rw [saveDataFromInputs_storage_isSome]; exact hstore)

/-- C6 witness: the two-field merge at concrete inputs. -/
theorem C6_two_field_merge_witness :
    lookupField (saveDataFromInputs "step"
        (saveDataFromInputs "step" ⟨[], some []⟩ "a" "va") "b" "vb").allFormData "a"
      = some "va" ∧
    lookupField (saveDataFromInputs "step"
        (saveDataFromInputs "step" ⟨[], some []⟩ "a" "va") "b" "vb").allFormData "b"
      = some "vb" := by
  have h := C6_two_field_merge "step" "a" "b" "va" "vb" ⟨[], some []⟩ (by decide) rfl
  exact ⟨h.1, h.2.1⟩

/-- C7: mounting with a stored entry under the step's key initializes the
aggregate to exactly that entry; with no entry (or no storage at all) the
aggregate starts empty; and hydrating the storage produced by a save yields
exactly the saved aggregate (persist-then-hydrate round trip). -/
theorem C7_hydration (storage : LocalStorage) (stepId : String) :
    (∀ stored, storageGetItem storage (getLocalStorageKey stepId) = some stored →
      initialAllFormData storage stepId = stored) ∧
    (storageGetItem storage (getLocalStorageKey stepId) = none →
      initialAllFormData storage stepId = []) ∧
    (∀ s : MultiInputState, s.storage.isSome = true → ∀ inputId data,
      initialAllFormData (saveDataFromInputs stepId s inputId data).storage stepId =
        (saveDataFromInputs stepId s inputId data).allFormData) := by
  refine ⟨fun stored h => initialAllFormData_of_getItem storage stepId stored h,
    initialAllFormData_of_getItem_none storage stepId, ?_⟩
  intro s hs inputId data
  exact initialAllFormData_of_getItem _ stepId _
    (saveDataFromInputs_storage stepId s inputId data hs)

/-- C7 witness: hydration at a concrete stored entry. -/
theorem C7_hydration_witness :
    initialAllFormData (some [(getLocalStorageKey "s1", [("a", "1")])]) "s1" = [("a", "1")] :=
  (C7_hydration (some [(getLocalStorageKey "s1", [("a", "1")])]) "s1").1 [("a", "1")]
    (by decide)

/-- `isValidApiKey` (FrigadeNPSSurvey/index.tsx lines 360-362):
`Boolean(apiKey && apiKey.length > 10 && apiKey.substring(0, 10) === 'api_public')`;
the first conjunct embeds JavaScript string truthiness (empty is falsy). -/
def isValidApiKey (apiKey : String) : Bool :=
  decide (apiKey ≠ "") && decide (apiKey.length > 10) &&
    decide (apiKey.take 10 = "api_public")

/-- The provider's `shouldGracefullyDegrade` flag (index.tsx lines 339-341 and
376-386): both the initial state and the key effect set it to the negation of
`isValidApiKey publicApiKey`. -/
def shouldGracefullyDegrade (publicApiKey : String) : Bool :=
  !isValidApiKey publicApiKey

/-- The status value `COMPLETED_FLOW` from `api/common`.  Modelled from the
spec: the constant lives in `src/api/common`, which is not among the provided
sources; the render guard only compares `getFlowStatus` to it for equality,
so its concrete text is irrelevant to every property proved here. -/
def COMPLETED_FLOW : String := "COMPLETED_FLOW"

/-- The inputs read by `FrigadeNPSSurvey`'s early-return render guards
(FrigadeNPSSurvey/index.tsx lines 66-92), in guard order: `isLoading`,
whether `getFlow(flowId)` found the flow, `targetingLogicShouldHideFlow`,
`getFlowStatus(flowId)`, `getNumberOfStepsCompleted(flowId)`,
`shouldKeepCompletedFlowOpenDuringSession(flowId)`, and `hasOpenModals()`. -/
structure NPSRenderInput where
  isLoading : Bool
  flowExists : Bool
  targetingShouldHide : Bool
  flowStatus : String
  numberOfStepsCompleted : Nat
  keepCompletedFlowOpenDuringSession : Bool
  hasOpenModals : Bool
deriving DecidableEq, Repr

/-- The cascade of early `return null` guards in `FrigadeNPSSurvey`
(index.tsx lines 66-92): the survey surface renders exactly when every guard
passes. -/
def npsShouldRender (s : NPSRenderInput) : Bool :=
  if s.isLoading then false
  else if !s.flowExists then false
  else if s.targetingShouldHide then false
  else if s.flowStatus = COMPLETED_FLOW then false
  else if s.numberOfStepsCompleted = 1 && !s.keepCompletedFlowOpenDuringSession then false
  else if s.hasOpenModals then false
  else true

/-- C3: graceful degradation happens exactly for invalid keys, where a key is
valid exactly when non-empty, longer than 10 characters, and carrying the
fixed 10-character expected text as its first 10 characters; any key of
length at least 11 with that text is accepted whatever its remaining
characters. -/
theorem C3_api_key_validation (key : String) :
    (shouldGracefullyDegrade key = false ↔
      key ≠ "" ∧ key.length > 10 ∧ key.take 10 = "api_public") ∧
    (key.length ≥ 11 → key.take 10 = "api_public" →
      shouldGracefullyDegrade key = false) := by
  constructor
  · simp [shouldGracefullyDegrade, isValidApiKey, and_assoc]
  · intro h1 h2
    have hne : key ≠ "" := by
      intro h
      rw [h] at h1
      simp at h1
    have h3 : key.length > 10 := h1
    simp [shouldGracefullyDegrade, isValidApiKey, hne, h2, h3]

/-- C3 witness: a length-11 key with the expected leading text is accepted. -/
theorem C3_api_key_validation_witness :
    shouldGracefullyDegrade "api_publicX" = false :=
  (C3_api_key_validation "api_publicX").2 (by decide) (by decide)

/-- C4: the claim exempts flows configured to stay open during the session
from the completed-status guard.  The code does not: with a completed flow
status, the keep-open flag set, and every other guard passing, the component
still renders nothing, because the status guard returns early
unconditionally. -/
theorem C4_counterexample :
    npsShouldRender ⟨false, true, false, COMPLETED_FLOW, 0, true, false⟩ ≠ true := by
  decide

/-- C4 (amended): a completed flow status suppresses rendering
unconditionally; the keep-open-during-session configuration exempts only the
exactly-one-step-completed guard, never the completed-status guard. -/
theorem C4_completed_flow_guard (s : NPSRenderInput)
    (h : s.flowStatus = COMPLETED_FLOW) : npsShouldRender s = false := by
  simp [npsShouldRender, h]

/-- C4 witness: the amended guard at a concrete completed flow. -/
theorem C4_completed_flow_guard_witness :
    npsShouldRender ⟨false, true, false, COMPLETED_FLOW, 0, false, false⟩ = false :=
  C4_completed_flow_guard ⟨false, true, false, COMPLETED_FLOW, 0, false, false⟩ rfl

/-- A payload sent with a `markStepCompleted` call. -/
inductive CompletionPayload where
  | score (n : Nat)
  | feedbackText (t : String)
deriving DecidableEq, Repr

/-- One call issued by a `FrigadeNPSSurvey` click handler, in program order:
local state setters, awaited remote completion calls, and host callbacks. -/
inductive NPSEvent where
  | setKeepOpen (flowId : String)
  | setScore (n : Nat)
  | stepCompleted (flowId stepId : String) (payload : CompletionPayload)
  | flowCompleted (flowId : String)
  | buttonClicked (stepId : String) (stepIndex : Nat) (kind : String)
  | dismissCallback
deriving DecidableEq, Repr

/-- The score-button click handler (index.tsx lines 118-122) for button index
`i`: sets the session keep-open flag, records the score `i + 1`, then awaits
the step completion with payload `{score: i + 1}`. -/
def scoreClickHandler (flowId stepId : String) (i : Nat) : List NPSEvent :=
  [NPSEvent.setKeepOpen flowId, NPSEvent.setScore (i + 1),
    NPSEvent.stepCompleted flowId stepId (CompletionPayload.score (i + 1))]

/-- A rendered NPS score button: its visible numeric label and the calls its
click handler issues. -/
structure NPSButton where
  label : Nat
  events : List NPSEvent
deriving DecidableEq, Repr

/-- The buttons rendered by `getScoreChooser` (index.tsx lines 113-127):
`Array.from(Array(10).keys())` yields indices 0..9, each mapped to a button
labelled `i + 1` with the score click handler for `i`. -/
def scoreChooserButtons (flowId stepId : String) : List NPSButton :=
  (List.range 10).map (fun i => ⟨i + 1, scoreClickHandler flowId stepId i⟩)

/-- The Skip button handler in `getScoreReason` (index.tsx lines 162-167):
awaits flow completion, then fires `onButtonClick(currentStep, 1, 'primary')`
when the host supplied the callback. -/
def skipHandler (flowId stepId : String) (hasOnButtonClick : Bool) : List NPSEvent :=
  [NPSEvent.flowCompleted flowId] ++
    (if hasOnButtonClick then [NPSEvent.buttonClicked stepId 1 "primary"] else [])

/-- The Submit button handler in `getScoreReason` (index.tsx lines 175-181):
awaits the step completion with payload `{feedbackText}`, then awaits flow
completion, then fires `onButtonClick(currentStep, 1, 'primary')` when the
host supplied the callback. -/
def submitHandler (flowId stepId feedbackText : String) (hasOnButtonClick : Bool) :
    List NPSEvent :=
  [NPSEvent.stepCompleted flowId stepId (CompletionPayload.feedbackText feedbackText),
    NPSEvent.flowCompleted flowId] ++
    (if hasOnButtonClick then [NPSEvent.buttonClicked stepId 1 "primary"] else [])

/-- C5: in the Submit handler, for every feedback text, the step-completion
call with payload `{feedbackText}` occurs strictly before the flow-completion
call, and every host-callback invocation occurs strictly after both awaited
remote calls. -/
theorem C5_submit_ordering (flowId stepId feedbackText : String)
    (hasOnButtonClick : Bool) :
    ∃ i j : Nat, i < j ∧
      (submitHandler flowId stepId feedbackText hasOnButtonClick).get? i =
        some (NPSEvent.stepCompleted flowId stepId
          (CompletionPayload.feedbackText feedbackText)) ∧
      (submitHandler flowId stepId feedbackText hasOnButtonClick).get? j =
        some (NPSEvent.flowCompleted flowId) ∧
      ∀ k sid idx kind,
        (submitHandler flowId stepId feedbackText hasOnButtonClick).get? k =
          some (NPSEvent.buttonClicked sid idx kind) → i < k ∧ j < k := by
  refine ⟨0, 1, Nat.zero_lt_one, rfl, rfl, ?_⟩
  intro k sid idx kind hk
  match k with
  | 0 => simp [submitHandler, List.get?] at hk
  | 1 => simp [submitHandler, List.get?] at hk
  | (n + 2) => omega

/-- C8: `getScoreChooser` renders exactly 10 buttons labelled 1 through 10;
the button labelled `n` records score `n`, issues the step completion with
payload `{score: n}`, and sets the session keep-open flag at a strictly
earlier position of its handler than the completion call. -/
theorem C8_score_chooser (flowId stepId : String) :
    (scoreChooserButtons flowId stepId).length = 10 ∧
    (scoreChooserButtons flowId stepId).map NPSButton.label =
      [1, 2, 3, 4, 5, 6, 7, 8, 9, 10] ∧
    ∀ n, 1 ≤ n → n ≤ 10 →
      ∃ b, (scoreChooserButtons flowId stepId).get? (n - 1) = some b ∧
        b.label = n ∧
        NPSEvent.setScore n ∈ b.events ∧
        ∃ i j : Nat, i < j ∧
          b.events.get? i = some (NPSEvent.setKeepOpen flowId) ∧
          b.events.get? j = some (NPSEvent.stepCompleted flowId stepId
            (CompletionPayload.score n)) := by
  refine ⟨by simp [scoreChooserButtons], ?_, ?_⟩
  · show List.map (fun i => i + 1) (List.range 10) = [1, 2, 3, 4, 5, 6, 7, 8, 9, 10]
    rfl
  · intro n h1 h10
    have hlt : n - 1 < 10 := by omega
    have hget : (scoreChooserButtons flowId stepId).get? (n - 1) =
        some ⟨n - 1 + 1, scoreClickHandler flowId stepId (n - 1)⟩ := by
      rw [scoreChooserButtons, List.get?_map, List.get?_range hlt]
      rfl
    have hn : n - 1 + 1 = n := by omega
    rw [hn] at hget
    refine ⟨_, hget, rfl, ?_, 0, 2, by omega, rfl, ?_⟩
    · simp [scoreClickHandler, hn]
    · simp [scoreClickHandler, hn, List.get?]

/-- C8 witness: button 7 at concrete flow and step ids. -/
theorem C8_score_chooser_witness :
    ∃ b, (scoreChooserButtons "flow-1" "step-1").get? (7 - 1) = some b ∧
      b.label = 7 ∧
      NPSEvent.setScore 7 ∈ b.events ∧
      ∃ i j : Nat, i < j ∧
        b.events.get? i = some (NPSEvent.setKeepOpen "flow-1") ∧
        b.events.get? j = some (NPSEvent.stepCompleted "flow-1" "step-1"
          (CompletionPayload.score 7)) :=
  (C8_score_chooser "flow-1" "step-1").2.2 7 (by omega) (by omega)

/-- C9: with a host callback supplied, both the Skip and the Submit handler
invoke it with the current step, step index 1 and button kind "primary", and
neither handler ever invokes it with any other step, index or kind — in
particular the secondary-styled Skip button reports "primary", never
"secondary". -/
theorem C9_callback_kind (flowId stepId feedbackText : String) :
    NPSEvent.buttonClicked stepId 1 "primary" ∈ skipHandler flowId stepId true ∧
    NPSEvent.buttonClicked stepId 1 "primary" ∈
      submitHandler flowId stepId feedbackText true ∧
    (∀ sid idx kind,
      NPSEvent.buttonClicked sid idx kind ∈ skipHandler flowId stepId true →
      sid = stepId ∧ idx = 1 ∧ kind = "primary") ∧
    (∀ sid idx kind,
      NPSEvent.buttonClicked sid idx kind ∈ submitHandler flowId stepId feedbackText true →
      sid = stepId ∧ idx = 1 ∧ kind = "primary") := by
  refine ⟨by simp [skipHandler], by simp [submitHandler], ?_, ?_⟩
  · intro sid idx kind h
    simp [skipHandler] at h
    exact h
  · intro sid idx kind h
    simp [submitHandler] at h
    exact h

/-- C9 witness: the Skip handler's callback invocation at concrete inputs. -/
theorem C9_callback_kind_witness :
    ("s" : String) = "s" ∧ (1 : Nat) = 1 ∧ ("primary" : String) = "primary" :=
  (C9_callback_kind "f" "s" "great").2.2.1 "s" 1 "primary" (by decide)

/-- The `userId` effect in `FrigadeProvider` (index.tsx lines 364-368):
`if (userId) setUserIdValue(userId)`; `none` embeds an undefined or null
prop, and the guard also rejects the empty (falsy) string, so only truthy
prop values overwrite the stored id. -/
def updateUserIdValue (prev propValue : Option String) : Option String :=
  match propValue with
  | none => prev
  | some s => if s = "" then prev else some s

/-- The `organizationId` effect in `FrigadeProvider` (index.tsx lines
370-374), identical in shape to the `userId` effect. -/
def updateOrganizationIdValue (prev propValue : Option String) : Option String :=
  match propValue with
  | none => prev
  | some s => if s = "" then prev else some s

/-- The initial `userIdValue`/`organizationIdValue` state (index.tsx lines
321-324): `!userId ? null : userId`. -/
def initialIdValue (propValue : Option String) : Option String :=
  match propValue with
  | none => none
  | some s => if s = "" then none else some s

/-- C10: the provider's stored user id (and likewise organization id) is
overwritten only by truthy prop values: an undefined/null or empty prop
leaves the previously stored id unchanged, while a non-empty prop value
replaces it. -/
theorem C10_id_retention (prev : Option String) :
    updateUserIdValue prev none = prev ∧
    updateUserIdValue prev (some "") = prev ∧
    (∀ s, s ≠ "" → updateUserIdValue prev (some s) = some s) ∧
    updateOrganizationIdValue prev none = prev ∧
    updateOrganizationIdValue prev (some "") = prev ∧
    (∀ s, s ≠ "" → updateOrganizationIdValue prev (some s) = some s) := by
  refine ⟨rfl, by simp [updateUserIdValue], ?_, rfl,
    by simp [updateOrganizationIdValue], ?_⟩
  · intro s hs
    simp [updateUserIdValue, hs]
  · intro s hs
    simp [updateOrganizationIdValue, hs]

/-- C10 witness: a truthy prop value replaces the stored id. -/
theorem C10_id_retention_witness :
    updateUserIdValue (some "old") (some "new") = some "new" :=
  (C10_id_retention (some "old")).2.2.1 "new" (by decide)

/-- C2 witness: clearing the last field's errors at a concrete aggregate. -/
theorem C2_canContinue_witness :
    canContinueOf (updateValidationErrors "A" [⟨"A", "m"⟩] []) = true :=
  (C2_canContinue []).2.2.2 "A" [⟨"A", "m"⟩] (by decide)

/-- C5 witness: the Submit ordering at concrete inputs. -/
theorem C5_submit_ordering_witness :
    ∃ i j : Nat, i < j ∧
      (submitHandler "f" "s" "great" true).get? i =
        some (NPSEvent.stepCompleted "f" "s" (CompletionPayload.feedbackText "great")) ∧
      (submitHandler "f" "s" "great" true).get? j =
        some (NPSEvent.flowCompleted "f") ∧
      ∀ k sid idx kind,
        (submitHandler "f" "s" "great" true).get? k =
          some (NPSEvent.buttonClicked sid idx kind) → i < k ∧ j < k :=
  C5_submit_ordering "f" "s" "great" true
